import Mathlib

/-!
# Verification of the Kaiterra REST API example scripts

Shallow embedding of `examples/restv1-auth.py`, `examples/restv1-hmac.py`
and `examples/restv1-apikey.py`. Bytes are modelled as natural numbers
below 256, byte strings as `List Nat`, Python `dict`s as association
lists in insertion order, and the ambient wall clock as an explicit
parameter. All definitions are executable.
-/

namespace Kaiterra

/-- Byte strings: each element is a byte value (0..255). -/
abbrev Bytes := List Nat

/-- 2^32, the modulus of the 32-bit words used by SHA-256. -/
def M32 : Nat := 4294967296

/-- Rotate the 32-bit word `x` right by `n` positions. -/
def rotr (n x : Nat) : Nat := ((x >>> n) ||| (x <<< (32 - n))) % M32

/-- The 64 SHA-256 round constants of FIPS 180-4, written in decimal. -/
def shaK : List Nat :=
  [1116352408, 1899447441, 3049323471, 3921009573,
   961987163, 1508970993, 2453635748, 2870763221,
   3624381080, 310598401, 607225278, 1426881987,
   1925078388, 2162078206, 2614888103, 3248222580,
   3835390401, 4022224774, 264347078, 604807628,
   770255983, 1249150122, 1555081692, 1996064986,
   2554220882, 2821834349, 2952996808, 3210313671,
   3336571891, 3584528711, 113926993, 338241895,
   666307205, 773529912, 1294757372, 1396182291,
   1695183700, 1986661051, 2177026350, 2456956037,
   2730485921, 2820302411, 3259730800, 3345764771,
   3516065817, 3600352804, 4094571909, 275423344,
   430227734, 506948616, 659060556, 883997877,
   958139571, 1322822218, 1537002063, 1747873779,
   1955562222, 2024104815, 2227730452, 2361852424,
   2428436474, 2756734187, 3204031479, 3329325298]

/-- The eight 32-bit working variables of SHA-256. -/
structure Hash8 where
  a : Nat
  b : Nat
  c : Nat
  d : Nat
  e : Nat
  f : Nat
  g : Nat
  h : Nat
deriving DecidableEq

/-- The eight SHA-256 initial hash words of FIPS 180-4, written in decimal. -/
def shaH0 : Hash8 :=
  ⟨1779033703, 3144134277, 1013904242, 2773480762,
   1359893119, 2600822924, 528734635, 1541459225⟩

/-- Group a byte string into big-endian 32-bit words, four bytes per word. -/
def toWords : Bytes → List Nat
  | a :: b :: c :: d :: rest => (((a * 256 + b) * 256 + c) * 256 + d) :: toWords rest
  | _ => []

/-- σ₀ of the SHA-256 message schedule. -/
def ssig0 (x : Nat) : Nat := rotr 7 x ^^^ rotr 18 x ^^^ (x >>> 3)

/-- σ₁ of the SHA-256 message schedule. -/
def ssig1 (x : Nat) : Nat := rotr 17 x ^^^ rotr 19 x ^^^ (x >>> 10)

/-- Extend the message schedule: `acc` holds the words produced so far, most
recent first; produce `n` further words and return the whole schedule in
chronological order. -/
def extendWords (acc : List Nat) : Nat → List Nat
  | 0 => acc.reverse
  | n + 1 =>
    extendWords
      (((ssig1 (acc.getD 1 0) + acc.getD 6 0 + ssig0 (acc.getD 14 0) + acc.getD 15 0) % M32) :: acc) n

/-- One SHA-256 round: `k` the round constant, `w` the schedule word. -/
def shaRound (s : Hash8) (k w : Nat) : Hash8 :=
  let bsig1 := rotr 6 s.e ^^^ rotr 11 s.e ^^^ rotr 25 s.e
  let ch := (s.e &&& s.f) ^^^ ((s.e ^^^ 0xffffffff) &&& s.g)
  let t1 := (s.h + bsig1 + ch + k + w) % M32
  let bsig0 := rotr 2 s.a ^^^ rotr 13 s.a ^^^ rotr 22 s.a
  let maj := (s.a &&& s.b) ^^^ (s.a &&& s.c) ^^^ (s.b &&& s.c)
  let t2 := (bsig0 + maj) % M32
  ⟨(t1 + t2) % M32, s.a, s.b, s.c, (s.d + t1) % M32, s.e, s.f, s.g⟩

/-- Compress one 64-byte block into the running hash value. -/
def compressBlock (hv : Hash8) (block : Bytes) : Hash8 :=
  let ws := extendWords (toWords block).reverse 48
  let s := (List.zip shaK ws).foldl (fun st kw => shaRound st kw.1 kw.2) hv
  ⟨(hv.a + s.a) % M32, (hv.b + s.b) % M32, (hv.c + s.c) % M32, (hv.d + s.d) % M32,
   (hv.e + s.e) % M32, (hv.f + s.f) % M32, (hv.g + s.g) % M32, (hv.h + s.h) % M32⟩

/-- Encode `n` as `len` big-endian bytes. -/
def natToBE : Nat → Nat → Bytes
  | 0, _ => []
  | len + 1, n => natToBE len (n / 256) ++ [n % 256]

/-- SHA-256 padding: append `0x80`, zero bytes to 56 mod 64, then the bit
length as 8 big-endian bytes. -/
def sha256pad (msg : Bytes) : Bytes :=
  let L := msg.length
  let k := (120 - (L + 1) % 64) % 64
  msg ++ 0x80 :: (List.replicate k 0 ++ natToBE 8 (8 * L))

/-- Split into 64-byte chunks (`fuel` bounds the recursion). -/
def chunksAux : Nat → Bytes → List Bytes
  | 0, _ => []
  | _, [] => []
  | fuel + 1, l => l.take 64 :: chunksAux fuel (l.drop 64)

/-- Serialize the final hash value as 32 bytes, big-endian per word. -/
def hash8ToBytes (s : Hash8) : Bytes :=
  natToBE 4 s.a ++ natToBE 4 s.b ++ natToBE 4 s.c ++ natToBE 4 s.d ++
  natToBE 4 s.e ++ natToBE 4 s.f ++ natToBE 4 s.g ++ natToBE 4 s.h

/-- SHA-256 of a byte string (`hashlib.sha256(msg).digest()`). -/
def sha256 (msg : Bytes) : Bytes :=
  let padded := sha256pad msg
  hash8ToBytes ((chunksAux padded.length padded).foldl compressBlock shaH0)

/-- Value of `hasher().block_size` for SHA-256. -/
def blocksize : Nat := 64

/-- The `hmac` function of `restv1-auth.py` / `restv1-hmac.py`: hash an
over-long key, zero-pad a short one, then the two nested SHA-256 passes over
the XOR-masked key. -/
def hmac (key message : Bytes) : Bytes :=
  let key1 := if blocksize < key.length then sha256 key else key
  let key2 := if key1.length < blocksize then key1 ++ List.replicate (blocksize - key1.length) 0 else key1
  let o_key_pad := key2.map fun b => 0x5c ^^^ b
  let i_key_pad := key2.map fun b => 0x36 ^^^ b
  sha256 (o_key_pad ++ sha256 (i_key_pad ++ message))

/-! ## Text codecs used by the scripts -/

/-- Lowercase hexadecimal digit, as produced by Python's `x` format code. -/
def hexDigitChar (n : Nat) : Char := if n < 10 then Char.ofNat (48 + n) else Char.ofNat (87 + n)

/-- Uppercase hexadecimal digit, as produced by `urllib.parse.quote_plus`. -/
def hexDigitUpper (n : Nat) : Char := if n < 10 then Char.ofNat (48 + n) else Char.ofNat (55 + n)

/-- A byte as two lowercase hex digits (Python `%02x`). -/
def byteToHex2 (b : Nat) : String := String.mk [hexDigitChar (b / 16 % 16), hexDigitChar (b % 16)]

/-- A byte string as its lowercase hexadecimal form (`.hexdigest()`). -/
def bytesToHexStr (bs : Bytes) : String := String.join (bs.map byteToHex2)

/-- Hex digits of `n`, most significant first; `fuel` bounds the recursion. -/
def natToHexAux : Nat → Nat → List Char
  | 0, _ => []
  | fuel + 1, n => if n = 0 then [] else natToHexAux fuel (n / 16) ++ [hexDigitChar (n % 16)]

/-- Render `n` in lowercase hexadecimal with no leading zeros (Python format code `x`). -/
def natToHex (n : Nat) : String := if n = 0 then "0" else String.mk (natToHexAux n n)

/-- Hexadecimal digit test, as accepted by `bytearray.fromhex`. -/
def isHexDigit (c : Char) : Bool :=
  (48 ≤ c.toNat && c.toNat ≤ 57) || (97 ≤ c.toNat && c.toNat ≤ 102) || (65 ≤ c.toNat && c.toNat ≤ 70)

/-- Value of a hexadecimal digit. -/
def hexVal (c : Char) : Nat :=
  if c.toNat ≤ 57 then c.toNat - 48 else if c.toNat ≤ 70 then c.toNat - 55 else c.toNat - 87

/-- Decode pairs of hex digits into bytes; `none` on a stray digit or a
non-hex character. -/
def fromhexAux : List Char → Option Bytes
  | [] => some []
  | c1 :: c2 :: rest =>
    if isHexDigit c1 && isHexDigit c2 then
      (fromhexAux rest).map fun bs => (hexVal c1 * 16 + hexVal c2) :: bs
    else none
  | [_] => none

/-- Python `bytearray.fromhex`: spaces are skipped, anything else must be an even
run of hex digits; raises `ValueError` (here: `none`) otherwise. -/
def bytearray_fromhex (s : String) : Option Bytes :=
  fromhexAux (s.data.filter fun c => c.toNat ≠ 32)

/-- ASCII character test. -/
def isAsciiChar (c : Char) : Bool := c.toNat < 128

/-- Python `str.encode('ascii')`: raises `UnicodeEncodeError` (here: `none`) on any
character above U+007F. -/
def asciiEncode (s : String) : Option Bytes :=
  if s.data.all isAsciiChar then some (s.data.map Char.toNat) else none

/-- UTF-8 encoding of one character, used by percent-encoding. -/
def utf8Char (c : Char) : Bytes :=
  let n := c.toNat
  if n < 128 then [n]
  else if n < 2048 then [192 ||| (n >>> 6), 128 ||| (n &&& 63)]
  else if n < 65536 then [224 ||| (n >>> 12), 128 ||| ((n >>> 6) &&& 63), 128 ||| (n &&& 63)]
  else [240 ||| (n >>> 18), 128 ||| ((n >>> 12) &&& 63), 128 ||| ((n >>> 6) &&& 63), 128 ||| (n &&& 63)]

/-- Characters `urllib.parse.quote_plus` leaves unescaped: ASCII letters,
digits, and `_ . - ~`. -/
def urlSafeChar (c : Char) : Bool :=
  (65 ≤ c.toNat && c.toNat ≤ 90) || (97 ≤ c.toNat && c.toNat ≤ 122) ||
  (48 ≤ c.toNat && c.toNat ≤ 57) || c.toNat == 95 || c.toNat == 46 || c.toNat == 45 || c.toNat == 126

/-- The `quote_plus` treatment of one character: safe characters unchanged, space
as `+`, anything else percent-encoded from its UTF-8 bytes, uppercase hex. -/
def quoteChar (c : Char) : List Char :=
  if urlSafeChar c then [c]
  else if c.toNat == 32 then ['+']
  else ((utf8Char c).map fun b => ['%', hexDigitUpper (b / 16 % 16), hexDigitUpper (b % 16)]).flatten

/-- Python `urllib.parse.quote_plus` on a string. -/
def quotePlus (s : String) : String := String.mk (s.data.map quoteChar).flatten

/-- Python `urllib.parse.urlencode` over the dict's entries in insertion order:
percent-encoded `k=v` pairs joined by `&`. -/
def urlencode : List (String × String) → String
  | [] => ""
  | [kv] => quotePlus kv.1 ++ "=" ++ quotePlus kv.2
  | kv :: rest => quotePlus kv.1 ++ "=" ++ quotePlus kv.2 ++ "&" ++ urlencode rest

/-- The base64 alphabet. -/
def b64Alphabet : List Char :=
  "ABCDEFGHIJKLMNOPQRSTUVWXYZabcdefghijklmnopqrstuvwxyz0123456789+/".data

/-- Alphabet lookup for a 6-bit group. -/
def b64Char (n : Nat) : Char := b64Alphabet.getD n 'A'

/-- Python `base64.b64encode` with `=` padding. -/
def b64encode : Bytes → String
  | [] => ""
  | [a] => String.mk [b64Char (a / 4), b64Char (a % 4 * 16), '=', '=']
  | [a, b] => String.mk [b64Char (a / 4), b64Char (a % 4 * 16 + b / 16), b64Char (b % 16 * 4), '=']
  | a :: b :: c :: rest =>
    String.mk [b64Char (a / 4), b64Char (a % 4 * 16 + b / 16), b64Char (b % 16 * 4 + c / 64), b64Char (c % 64)] ++
      b64encode rest

/-- Python `str.strip(c)`: remove `c` from both ends. -/
def stripChar (c : Char) (s : String) : String :=
  String.mk (((s.data.dropWhile fun x => x == c).reverse.dropWhile fun x => x == c).reverse)

/-! ## Python dicts as insertion-ordered association lists -/

/-- Assignment `d[k] = v`: overwrite the first (unique) occurrence in place, else append. -/
def dictSet : List (String × String) → String → String → List (String × String)
  | [], k, v => [(k, v)]
  | kv :: rest, k, v => if kv.1 == k then (k, v) :: rest else kv :: dictSet rest k v

/-- Lookup `d.get(k)`. -/
def dictGet : List (String × String) → String → Option String
  | [], _ => none
  | kv :: rest, k => if kv.1 == k then some kv.2 else dictGet rest k

/-! ## Module-level constants of the three scripts -/

/-- Constant `base_url` in `restv1-auth.py`. -/
def base_url : String := "https://api.origins-china.cn/v1/"

/-- Constant `dev_demo_key` in `restv1-auth.py`. -/
def dev_demo_key : String := "kOpAgVMnz2zM5l6XKQwv4JmUEvopnmUewFKXQ0Wvf9Su72a9"

/-- Constant `client_id` in `restv1-auth.py`. -/
def client_id : String := "2c13f157da77"

/-- Constant `hmac_secret_key` in `restv1-auth.py`. -/
def hmac_secret_key : String :=
  "c92b4edcf25006c1854ab33144e4101261c419b48c6c5a2dbf3c349bd07b1f27c259632a2bf6812e15b994abb1dcffad160a495561986b04514bd5e070b985b1"

/-- Constant `API_KEY` in `restv1-apikey.py`. -/
def API_KEY : String := "your-api-key"

/-- Constant `CLIENT_ID` in `restv1-hmac.py`. -/
def CLIENT_ID : String := "00000000001"

/-- Constant `HMAC_SECRET_KEY` in `restv1-hmac.py` (the shipped placeholder). -/
def HMAC_SECRET_KEY : String := "your-hmac-secret-key"

/-! ## The authenticators -/

/-- Python-level failures the scripts can raise. -/
inductive PyError where
  /-- `ValueError` from `bytearray.fromhex` on a non-hex secret. -/
  | valueErrorFromhex : PyError
  /-- `UnicodeEncodeError` from `str.encode('ascii')`. -/
  | unicodeEncodeError : PyError
  /-- `requests.HTTPError` from `raise_for_status`; carries the response. -/
  | httpError (status : Nat) (body : Bytes) : PyError
  /-- The explicit `Exception` raised by `restv1-auth.py` on a non-2xx status. -/
  | non2xxError (status : Nat) : PyError
  /-- `UnboundLocalError`: a local variable referenced before assignment. -/
  | unboundLocal (name : String) : PyError
deriving DecidableEq

/-- The module globals `auth_request_as_hmac` reads. -/
structure HmacConfig where
  base_url : String
  client_id : String
  hmac_secret_key : String

/-- The globals of `restv1-auth.py` as an `HmacConfig`. -/
def authConfig : HmacConfig := ⟨base_url, client_id, hmac_secret_key⟩

/-- The globals of `restv1-hmac.py` as an `HmacConfig`. -/
def hmacScriptConfig : HmacConfig := ⟨"https://api.kaiterra.cn/v1/", CLIENT_ID, HMAC_SECRET_KEY⟩

/-- Function `auth_request_as_hmac` of `restv1-auth.py` / `restv1-hmac.py`. The wall
clock `int(time.time())` is the explicit parameter `t`, read once per call.
Returns the full URL and the augmented headers dict, or the Python error the
call would raise. -/
def auth_request_as_hmac (cfg : HmacConfig) (t : Nat) (relative_url : String)
    (params headers : List (String × String)) (body : Bytes) :
    Except PyError (String × List (String × String)) :=
  match bytearray_fromhex cfg.hmac_secret_key with
  | none => .error .valueErrorFromhex
  | some hex_key =>
    let headers1 := dictSet headers "X-Kaiterra-Client" cfg.client_id
    let ts := natToHex t
    let headers2 := dictSet headers1 "X-Kaiterra-Time" ts
    match asciiEncode ("X-Kaiterra-Client=" ++ cfg.client_id ++ "&X-Kaiterra-Time=" ++ ts) with
    | none => .error .unicodeEncodeError
    | some header_component =>
      let relative_url_with_params :=
        if params.isEmpty then relative_url else relative_url ++ "?" ++ urlencode params
      match asciiEncode relative_url_with_params with
      | none => .error .unicodeEncodeError
      | some url_component =>
        let full_payload := header_component ++ url_component ++ body
        let headers3 := dictSet headers2 "X-Kaiterra-HMAC" (b64encode (hmac hex_key full_payload))
        .ok (stripChar '/' cfg.base_url ++ relative_url_with_params, headers3)

/-- The relative URL with the query string appended iff `params` is non-empty. -/
def urlWithParams (relative_url : String) (params : List (String × String)) : String :=
  if params.isEmpty then relative_url else relative_url ++ "?" ++ urlencode params

/-- The exact byte string `auth_request_as_hmac` signs: header component,
URL component, body — no delimiter. -/
def hmacPayload (cid : String) (t : Nat) (relative_url : String)
    (params : List (String × String)) (body : Bytes) : Bytes :=
  ("X-Kaiterra-Client=" ++ cid ++ "&X-Kaiterra-Time=" ++ natToHex t).data.map Char.toNat ++
    (urlWithParams relative_url params).data.map Char.toNat ++ body

/-- Result of `auth_request_as_url`: the final URL, the params dict as the
call leaves it (the caller's dict, mutated in place), and the headers. -/
structure UrlAuthResult where
  url : String
  params : List (String × String)
  headers : List (String × String)
deriving DecidableEq

/-- Function `auth_request_as_url` of `restv1-auth.py`: set `params['key']` to the
developer key and append the encoded query string to the URL. -/
def auth_request_as_url (dev_key burl relative_url : String)
    (params headers : List (String × String)) : UrlAuthResult :=
  let params1 := dictSet params "key" dev_key
  ⟨stripChar '/' burl ++ relative_url ++ "?" ++ urlencode params1, params1, headers⟩

/-- The params dict of `do_get` in `restv1-apikey.py` after the call body ran
(`params['key'] = API_KEY` mutates the caller's — by default the shared
default — dict). -/
def do_get_params_after (params : List (String × String)) : List (String × String) :=
  dictSet params "key" API_KEY

/-! ## Dispatch and response handling -/

/-- An HTTP response as the scripts see it. -/
structure HttpResponse where
  status : Nat
  content : Bytes
deriving DecidableEq

/-- Method `response.raise_for_status()`: an `HTTPError` carrying the response for a
4xx or 5xx status, nothing otherwise. -/
def raise_for_status (r : HttpResponse) : Option PyError :=
  if 400 ≤ r.status ∧ r.status < 600 then some (.httpError r.status r.content) else none

/-- Lines 146-159 of `restv1-auth.py`: `raise_for_status`, the explicit
non-2xx check, then the empty/JSON body split. `loads` stands for
`content.decode('utf-8')` followed by `json.loads`, modelled as a total
oracle producing the generic parsed value. -/
def handle_response_auth {J : Type} (loads : Bytes → J) (r : HttpResponse) :
    Except PyError (Option J) :=
  match raise_for_status r with
  | some e => .error e
  | none =>
    if ¬(200 ≤ r.status ∧ r.status < 300) then .error (.non2xxError r.status)
    else if 0 < r.content.length then .ok (some (loads r.content)) else .ok none

/-- Lines 114-125 of `restv1-hmac.py`: `raise_for_status`, then the
empty/JSON body split — no separate non-2xx check. -/
def handle_response_hmac {J : Type} (loads : Bytes → J) (r : HttpResponse) :
    Except PyError (Option J) :=
  match raise_for_status r with
  | some e => .error e
  | none => if 0 < r.content.length then .ok (some (loads r.content)) else .ok none

/-- Lines 43-55 of `restv1-apikey.py` (`do_get`): same shape as the
`restv1-hmac.py` handler. -/
def handle_response_apikey {J : Type} (loads : Bytes → J) (r : HttpResponse) :
    Except PyError (Option J) :=
  match raise_for_status r with
  | some e => .error e
  | none => if 0 < r.content.length then .ok (some (loads r.content)) else .ok none

/-- Function `do_req` of `restv1-hmac.py`. `hdrs0` is the current contents of
`auth_request_as_hmac`'s default `headers` dict (the function is called
without a `headers` argument); `transport` maps the verb to the response the
network would give. An unknown verb leaves the local `response` unassigned,
so the subsequent read of it raises `UnboundLocalError`. -/
def do_req {J : Type} (cfg : HmacConfig) (t : Nat) (transport : String → HttpResponse)
    (loads : Bytes → J) (verb relative_url : String) (body : Bytes)
    (params hdrs0 : List (String × String)) : Except PyError (Option J) :=
  match auth_request_as_hmac cfg t relative_url params hdrs0 body with
  | .error e => .error e
  | .ok (_url, headers) =>
    let _headers2 := if 0 < body.length then dictSet headers "Content-Type" "application/json" else headers
    if verb == "get" || verb == "post" || verb == "put" then
      handle_response_hmac loads (transport verb)
    else
      .error (.unboundLocal "response")

/-- Lines 139-159 of `restv1-auth.py`: the verb dispatch of its `do_req`,
with the same unassigned-`response` behaviour, feeding its response
handler. -/
def do_req_auth_dispatch {J : Type} (loads : Bytes → J) (transport : String → HttpResponse)
    (verb : String) : Except PyError (Option J) :=
  if verb == "get" || verb == "post" || verb == "put" then
    handle_response_auth loads (transport verb)
  else
    .error (.unboundLocal "response")

/-! ## Response summarization helpers -/

/-- Python truthiness of an optional number: absent and zero are both falsy. -/
def truthyNum (v : Option Int) : Bool :=
  match v with
  | none => false
  | some n => n != 0

/-- The PM2.5 line printed by `summarize_laser_egg` (`restv1-hmac.py` lines
150-154, `restv1-apikey.py` lines 80-84): the reading is tested for
truthiness, not presence. -/
def summarize_laser_egg_pm25_line (pm25 : Option Int) : String :=
  if truthyNum pm25 then "  PM2.5:   " ++ toString (pm25.getD 0) ++ " µg/m³"
  else "  PM2.5:   no data"

/-- The PM2.5 line printed by `summarize_sensedge` from `km100.rpm25c`. -/
def summarize_sensedge_pm25_line (pm25 : Option Int) : String :=
  if truthyNum pm25 then "  PM2.5:   " ++ toString (pm25.getD 0) ++ " µg/m³"
  else "  PM2.5:   no data"

/-- The TVOC line printed by `summarize_sensedge` from `km102.rtvoc (ppb)`. -/
def summarize_sensedge_tvoc_line (tvoc : Option Int) : String :=
  if truthyNum tvoc then "  TVOC:    " ++ toString (tvoc.getD 0) ++ " ppb"
  else "  TVOC:    no data"

/-- Whether an `Except` value is a success. -/
def exceptOk {ε α : Type} : Except ε α → Bool
  | .ok _ => true
  | .error _ => false

/-- Result of `bytearray.fromhex(hmac_secret_key)` for the `restv1-auth.py` secret. -/
def authSecretKeyBytes : Bytes :=
  [201, 43, 78, 220, 242, 80, 6, 193, 133, 74, 179, 49, 68, 228, 16, 18,
   97, 196, 25, 180, 140, 108, 90, 45, 191, 60, 52, 155, 208, 123, 31, 39,
   194, 89, 99, 42, 43, 246, 129, 46, 21, 185, 148, 171, 177, 220, 255, 173,
   22, 10, 73, 85, 97, 152, 107, 4, 81, 75, 213, 224, 112, 185, 133, 177]

/-- Key normalization transcribed from the spec's three clauses, each branch
stated independently: an over-long key is replaced by its SHA-256 digest and
(being then shorter than 64 bytes) zero-padded, a short key is zero-padded,
an exactly-64-byte key is used unmodified. -/
def specNormalizedKey (key : Bytes) : Bytes :=
  if 64 < key.length then sha256 key ++ List.replicate (64 - (sha256 key).length) 0
  else if key.length < 64 then key ++ List.replicate (64 - key.length) 0
  else key

/-- Does the first list lead the second, i.e. is it an initial run of it? -/
def leadsWith : List Char → List Char → Bool
  | [], _ => true
  | _ :: _, [] => false
  | a :: as, b :: bs => a == b && leadsWith as bs

/-- Does `needle` occur as a contiguous substring of `hay`? -/
def containsSub (needle hay : List Char) : Bool :=
  match hay with
  | [] => leadsWith needle []
  | _ :: t => leadsWith needle hay || containsSub needle t

/-! ## Helper lemmas -/

theorem natToBE_length (len n : Nat) : (natToBE len n).length = len := by
  induction len generalizing n with
  | zero => rfl
  | succ l ih => simp [natToBE, ih]

theorem sha256_length (msg : Bytes) : (sha256 msg).length = 32 := by
  simp [sha256, hash8ToBytes, natToBE_length]

theorem hmac_length (key message : Bytes) : (hmac key message).length = 32 :=
  sha256_length _

theorem dictGet_dictSet_same (d : List (String × String)) (k v : String) :
    dictGet (dictSet d k v) k = some v := by
  induction d with
  | nil => simp [dictSet, dictGet]
  | cons kv rest ih =>
    cases h : kv.1 == k with
    | true => simp [dictSet, dictGet, h]
    | false => simp [dictSet, dictGet, h, ih]

theorem dictGet_dictSet_other (d : List (String × String)) (k v k' : String)
    (hne : (k == k') = false) : dictGet (dictSet d k v) k' = dictGet d k' := by
  induction d with
  | nil => simp [dictSet, dictGet, hne]
  | cons kv rest ih =>
    cases h : kv.1 == k with
    | true =>
      have : kv.1 = k := by simpa using h
      simp [dictSet, dictGet, h, hne, this]
    | false => simp [dictSet, dictGet, h, ih]

theorem dictSet_of_absent (d : List (String × String)) (k v : String)
    (habs : dictGet d k = none) : dictSet d k v = d ++ [(k, v)] := by
  induction d with
  | nil => simp [dictSet]
  | cons kv rest ih =>
    cases h : kv.1 == k with
    | true => simp [dictGet, h] at habs
    | false =>
      simp [dictGet, h] at habs
      simp [dictSet, h, ih habs]

/-! ## C1, C3, C4: the HMAC core -/

/-- C1: `hmac` implements the standard HMAC-SHA256 construction with block
size 64: the signature is `SHA256((key XOR 0x5c-repeated) ||
SHA256((key XOR 0x36-repeated) || message))` over the normalized key, where
a key longer than 64 bytes is first replaced by its SHA-256 digest, a key
shorter than 64 bytes is right-padded with zero bytes to 64 bytes, and a key
of exactly 64 bytes is used unmodified. -/
theorem hmac_implements_hmac_sha256_construction (key message : Bytes) :
    hmac key message =
      sha256 (((specNormalizedKey key).map fun b => 0x5c ^^^ b) ++
        sha256 (((specNormalizedKey key).map fun b => 0x36 ^^^ b) ++ message)) ∧
    (64 < key.length → specNormalizedKey key = sha256 key ++ List.replicate 32 0) ∧
    (key.length < 64 → specNormalizedKey key = key ++ List.replicate (64 - key.length) 0) ∧
    (key.length = 64 → specNormalizedKey key = key) := by
  refine ⟨?_, ?_, ?_, ?_⟩
  · unfold hmac specNormalizedKey blocksize
    rcases lt_trichotomy key.length 64 with h | h | h
    · simp [h, Nat.not_lt.mpr (Nat.le_of_lt h)]
    · simp [h]
    · simp [h, Nat.not_lt.mpr (Nat.le_of_lt h), Nat.lt_irrefl, sha256_length]
  · intro h
    simp [specNormalizedKey, h, sha256_length]
  · intro h
    simp [specNormalizedKey, h, Nat.not_lt.mpr (Nat.le_of_lt h)]
  · intro h
    simp [specNormalizedKey, h]

/-- Witness for C1 at a concrete 3-byte key and 1-byte message. -/
theorem hmac_implements_hmac_sha256_construction_witness :
    hmac [1, 2, 3] [7] =
      sha256 (((specNormalizedKey [1, 2, 3]).map fun b => 0x5c ^^^ b) ++
        sha256 (((specNormalizedKey [1, 2, 3]).map fun b => 0x36 ^^^ b) ++ [7])) ∧
    (64 < ([1, 2, 3] : Bytes).length → specNormalizedKey [1, 2, 3] = sha256 [1, 2, 3] ++ List.replicate 32 0) ∧
    (([1, 2, 3] : Bytes).length < 64 →
      specNormalizedKey [1, 2, 3] = [1, 2, 3] ++ List.replicate (64 - ([1, 2, 3] : Bytes).length) 0) ∧
    (([1, 2, 3] : Bytes).length = 64 → specNormalizedKey [1, 2, 3] = [1, 2, 3]) :=
  hmac_implements_hmac_sha256_construction [1, 2, 3] [7]

set_option maxRecDepth 10000 in
/-- C3 counterexample: on the standard test-vector input, the digest's
hexadecimal form is not the 63-character string cited by the spec (the
spec's string drops the final digit). -/
theorem hmac_test_vector_claimed_digest_false :
    bytesToHexStr (hmac ("key".data.map Char.toNat)
        ("The quick brown fox jumps over the lazy dog".data.map Char.toNat)) ≠
      "f7bc83f430538424b13298e6aa6fb143ef4d59a14946175997479dbc2d1a3cd" := by
  decide

set_option maxRecDepth 10000 in
/-- C3 as amended: on key `"key"` and message `"The quick brown fox jumps
over the lazy dog"`, `hmac` produces the digest whose hexadecimal form is
`f7bc83f430538424b13298e6aa6fb143ef4d59a14946175997479dbc2d1a3cd8` (the
standard HMAC-SHA256 test vector, 64 hex digits). -/
theorem hmac_test_vector_digest :
    bytesToHexStr (hmac ("key".data.map Char.toNat)
        ("The quick brown fox jumps over the lazy dog".data.map Char.toNat)) =
      "f7bc83f430538424b13298e6aa6fb143ef4d59a14946175997479dbc2d1a3cd8" := by
  decide

/-- C4: `hmac` is deterministic — it is a pure function of exactly its key
and message (its type takes no clock or other ambient state), so applying it
twice to the same pair yields the same signature. -/
theorem hmac_deterministic (key message : Bytes) : hmac key message = hmac key message := rfl

/-! ## C10: truthiness in the summarization helpers -/

/-- C10: the summarization helpers test the extracted reading for Python
truthiness, so a present reading of `0` is reported as `no data` in exactly
the way an absent reading is — for the Laser Egg PM2.5 field, the Sensedge
PM2.5 field, and the Sensedge TVOC field. -/
theorem summarize_zero_reading_reported_as_no_data :
    summarize_laser_egg_pm25_line (some 0) = "  PM2.5:   no data" ∧
    summarize_laser_egg_pm25_line (some 0) = summarize_laser_egg_pm25_line none ∧
    summarize_sensedge_pm25_line (some 0) = "  PM2.5:   no data" ∧
    summarize_sensedge_pm25_line (some 0) = summarize_sensedge_pm25_line none ∧
    summarize_sensedge_tvoc_line (some 0) = "  TVOC:    no data" ∧
    summarize_sensedge_tvoc_line (some 0) = summarize_sensedge_tvoc_line none := by
  refine ⟨rfl, rfl, rfl, rfl, rfl, rfl⟩

/-! ## ASCII facts about the generated strings -/

theorem hexDigitChar_ascii : ∀ n, n < 16 → isAsciiChar (hexDigitChar n) = true := by decide

theorem hexDigitUpper_ascii : ∀ n, n < 16 → isAsciiChar (hexDigitUpper n) = true := by decide

theorem natToHexAux_ascii (fuel n : Nat) : (natToHexAux fuel n).all isAsciiChar = true := by
  induction fuel generalizing n with
  | zero => rfl
  | succ f ih =>
    unfold natToHexAux
    by_cases h : n = 0
    · simp [h]
    · simp [h, List.all_append, ih, hexDigitChar_ascii (n % 16) (Nat.mod_lt _ (by norm_num))]

theorem natToHex_ascii (n : Nat) : (natToHex n).data.all isAsciiChar = true := by
  unfold natToHex
  by_cases h : n = 0
  · simp only [h, if_pos rfl]
    decide
  · simpa [h] using natToHexAux_ascii n n

theorem all_flatten_ascii (ls : List (List Char)) (h : ∀ l ∈ ls, l.all isAsciiChar = true) :
    ls.flatten.all isAsciiChar = true := by
  induction ls with
  | nil => rfl
  | cons x xs ih =>
    simp only [List.flatten_cons, List.all_append]
    rw [h x (by simp), ih fun l hl => h l (by simp [hl])]
    rfl

theorem quoteChar_ascii (c : Char) : (quoteChar c).all isAsciiChar = true := by
  unfold quoteChar
  by_cases h1 : urlSafeChar c = true
  · have hlt : c.toNat < 128 := by
      simp only [urlSafeChar, Bool.or_eq_true, Bool.and_eq_true, decide_eq_true_eq,
        beq_iff_eq] at h1
      omega
    simp [h1, isAsciiChar, hlt]
  · by_cases h2 : (c.toNat == 32) = true
    · simp [h1, h2]
      decide
    · simp only [h1, h2, Bool.false_eq_true, if_neg, not_false_iff]
      apply all_flatten_ascii
      intro l hl
      simp only [List.mem_map] at hl
      obtain ⟨b, _, rfl⟩ := hl
      simp only [List.all_cons, List.all_nil, Bool.and_true, Bool.and_eq_true]
      refine ⟨by decide, hexDigitUpper_ascii _ (Nat.mod_lt _ (by norm_num)),
        hexDigitUpper_ascii _ (Nat.mod_lt _ (by norm_num))⟩

theorem quotePlus_ascii (s : String) : (quotePlus s).data.all isAsciiChar = true := by
  show ((s.data.map quoteChar).flatten).all isAsciiChar = true
  apply all_flatten_ascii
  intro l hl
  simp only [List.mem_map] at hl
  obtain ⟨c, _, rfl⟩ := hl
  exact quoteChar_ascii c

theorem urlencode_ascii : ∀ params : List (String × String),
    (urlencode params).data.all isAsciiChar = true
  | [] => rfl
  | [kv] => by
    simp [urlencode, String.data_append, List.all_append, quotePlus_ascii]
    decide
  | kv1 :: kv2 :: rest => by
    have ih := urlencode_ascii (kv2 :: rest)
    simp [urlencode, String.data_append, List.all_append, quotePlus_ascii, ih]
    decide

theorem asciiEncode_eq_some (s : String) (hs : s.data.all isAsciiChar = true) :
    asciiEncode s = some (s.data.map Char.toNat) := by
  simp [asciiEncode, hs]

theorem urlWithParams_ascii (relative_url : String) (params : List (String × String))
    (hu : relative_url.data.all isAsciiChar = true) :
    (urlWithParams relative_url params).data.all isAsciiChar = true := by
  unfold urlWithParams
  by_cases h : params.isEmpty
  · simp [h, hu]
  · simp [h, String.data_append, List.all_append, hu, urlencode_ascii]
    decide

/-- The success shape of `auth_request_as_hmac`: with a hex-decodable secret
and ASCII client id and URL, the call returns the stripped base URL with the
parameterized relative URL, and the input headers augmented with the client,
timestamp and base64 signature entries, the signature being the `hmac` of
the canonical payload. -/
theorem auth_request_as_hmac_ok (cfg : HmacConfig) (t : Nat) (relative_url : String)
    (params headers : List (String × String)) (body : Bytes) (key : Bytes)
    (hkey : bytearray_fromhex cfg.hmac_secret_key = some key)
    (hc : cfg.client_id.data.all isAsciiChar = true)
    (hu : relative_url.data.all isAsciiChar = true) :
    auth_request_as_hmac cfg t relative_url params headers body =
      .ok (stripChar '/' cfg.base_url ++ urlWithParams relative_url params,
        dictSet (dictSet (dictSet headers "X-Kaiterra-Client" cfg.client_id)
            "X-Kaiterra-Time" (natToHex t))
          "X-Kaiterra-HMAC"
          (b64encode (hmac key (hmacPayload cfg.client_id t relative_url params body)))) := by
  have hh : ("X-Kaiterra-Client=" ++ cfg.client_id ++ "&X-Kaiterra-Time=" ++
      natToHex t).data.all isAsciiChar = true := by
    simp [String.data_append, List.all_append, hc, natToHex_ascii]
    decide
  have hu2 := urlWithParams_ascii relative_url params hu
  unfold auth_request_as_hmac
  rw [hkey]
  simp only [asciiEncode_eq_some _ hh]
  have hif : (if params.isEmpty then relative_url
      else relative_url ++ "?" ++ urlencode params) = urlWithParams relative_url params := rfl
  rw [hif, asciiEncode_eq_some _ hu2]
  simp [hmacPayload]

/-! ## C2: the canonical signed payload -/

/-- C2: with the secret decodable and the client id and URL ASCII (as both
scripts' constants are), `auth_request_as_hmac` signs exactly the delimiterless
concatenation of the `X-Kaiterra-Client=<id>&X-Kaiterra-Time=<hex time>`
literal, the relative URL with `?` plus the encoded query appended iff
`params` is non-empty, and the raw body; and it returns headers holding the
client id, the hex timestamp, and the base64 of the 32-byte HMAC of that
payload. -/
theorem auth_request_as_hmac_canonical_payload (cfg : HmacConfig) (t : Nat)
    (relative_url : String) (params headers : List (String × String)) (body : Bytes)
    (key : Bytes) (hkey : bytearray_fromhex cfg.hmac_secret_key = some key)
    (hc : cfg.client_id.data.all isAsciiChar = true)
    (hu : relative_url.data.all isAsciiChar = true) :
    ∃ hs : List (String × String),
      auth_request_as_hmac cfg t relative_url params headers body =
        .ok (stripChar '/' cfg.base_url ++ urlWithParams relative_url params, hs) ∧
      dictGet hs "X-Kaiterra-Client" = some cfg.client_id ∧
      dictGet hs "X-Kaiterra-Time" = some (natToHex t) ∧
      dictGet hs "X-Kaiterra-HMAC" =
        some (b64encode (hmac key (hmacPayload cfg.client_id t relative_url params body))) ∧
      (hmac key (hmacPayload cfg.client_id t relative_url params body)).length = 32 := by
  refine ⟨_, auth_request_as_hmac_ok cfg t relative_url params headers body key hkey hc hu,
    ?_, ?_, dictGet_dictSet_same _ _ _, hmac_length _ _⟩
  · rw [dictGet_dictSet_other _ _ _ _ (by decide), dictGet_dictSet_other _ _ _ _ (by decide)]
    exact dictGet_dictSet_same _ _ _
  · rw [dictGet_dictSet_other _ _ _ _ (by decide)]
    exact dictGet_dictSet_same _ _ _

/-- Witness for C2 at the `restv1-auth.py` constants, a fixed timestamp, and
the demo Laser Egg path. -/
theorem auth_request_as_hmac_canonical_payload_witness :
    ∃ hs : List (String × String),
      auth_request_as_hmac authConfig 1600000000
          "/lasereggs/b55a2a78-d14d-4b27-9e20-91804925407d" [] [] [] =
        .ok (stripChar '/' authConfig.base_url ++
          urlWithParams "/lasereggs/b55a2a78-d14d-4b27-9e20-91804925407d" [], hs) ∧
      dictGet hs "X-Kaiterra-Client" = some authConfig.client_id ∧
      dictGet hs "X-Kaiterra-Time" = some (natToHex 1600000000) ∧
      dictGet hs "X-Kaiterra-HMAC" =
        some (b64encode (hmac authSecretKeyBytes (hmacPayload authConfig.client_id 1600000000
          "/lasereggs/b55a2a78-d14d-4b27-9e20-91804925407d" [] []))) ∧
      (hmac authSecretKeyBytes (hmacPayload authConfig.client_id 1600000000
        "/lasereggs/b55a2a78-d14d-4b27-9e20-91804925407d" [] [])).length = 32 :=
  auth_request_as_hmac_canonical_payload authConfig 1600000000
    "/lasereggs/b55a2a78-d14d-4b27-9e20-91804925407d" [] [] [] authSecretKeyBytes
    (by decide) (by decide) (by decide)

/-! ## C7: error conditions of signing -/

/-- C7 counterexample: with a perfectly valid hex secret, signing still has
another error path — a relative URL with a non-ASCII character makes
`str.encode('ascii')` raise `UnicodeEncodeError`. -/
theorem hmac_signing_nonascii_url_raises :
    bytearray_fromhex "00" = some [0] ∧
    auth_request_as_hmac ⟨base_url, client_id, "00"⟩ 0 "/é" [] [] [] =
      .error .unicodeEncodeError := by
  exact ⟨by decide, rfl⟩

/-- C7 as amended: a secret-key text that is not valid hex is a fatal input
error (`ValueError` from `bytearray.fromhex`); with a valid-hex secret,
signing succeeds for every params mapping, headers mapping and body, and for
every relative URL that encodes as ASCII — a non-ASCII relative URL is the
one further error path (`UnicodeEncodeError`). -/
theorem hmac_signing_error_conditions :
    (∀ (cfg : HmacConfig) (t : Nat) (relative_url : String)
        (params headers : List (String × String)) (body : Bytes),
      bytearray_fromhex cfg.hmac_secret_key = none →
      auth_request_as_hmac cfg t relative_url params headers body = .error .valueErrorFromhex) ∧
    (∀ (cfg : HmacConfig) (t : Nat) (relative_url : String)
        (params headers : List (String × String)) (body : Bytes) (key : Bytes),
      bytearray_fromhex cfg.hmac_secret_key = some key →
      cfg.client_id.data.all isAsciiChar = true →
      relative_url.data.all isAsciiChar = true →
      ∃ res, auth_request_as_hmac cfg t relative_url params headers body = .ok res) := by
  constructor
  · intro cfg t relative_url params headers body h
    unfold auth_request_as_hmac
    rw [h]
  · intro cfg t relative_url params headers body key hkey hc hu
    exact ⟨_, auth_request_as_hmac_ok cfg t relative_url params headers body key hkey hc hu⟩

/-- Witness for C7: the invalid-hex branch at the `restv1-hmac.py` shipped
placeholder secret, and the success branch at a two-digit secret. -/
theorem hmac_signing_error_conditions_witness :
    auth_request_as_hmac hmacScriptConfig 0 "/x" [] [] [] = .error .valueErrorFromhex ∧
    ∃ res, auth_request_as_hmac ⟨base_url, client_id, "00"⟩ 0 "/x" [] [] [] = .ok res :=
  ⟨hmac_signing_error_conditions.1 hmacScriptConfig 0 "/x" [] [] [] (by decide),
   hmac_signing_error_conditions.2 ⟨base_url, client_id, "00"⟩ 0 "/x" [] [] [] [0]
     (by decide) (by decide) (by decide)⟩

/-! ## C5: the key-in-URL authenticator -/

theorem urlencode_append_single (kv : String × String) :
    ∀ params : List (String × String), params ≠ [] →
      urlencode (params ++ [kv]) = urlencode params ++ "&" ++ urlencode [kv]
  | [], h => absurd rfl h
  | [x], _ => by simp [urlencode]
  | x :: y :: rest, _ => by
    have ih := urlencode_append_single kv (y :: rest) (by simp)
    show urlencode (x :: ((y :: rest) ++ [kv])) = _
    rw [show urlencode (x :: ((y :: rest) ++ [kv])) =
        quotePlus x.1 ++ "=" ++ quotePlus x.2 ++ "&" ++ urlencode ((y :: rest) ++ [kv]) from by
      simp [urlencode]]
    rw [ih]
    rw [show urlencode (x :: y :: rest) =
        quotePlus x.1 ++ "=" ++ quotePlus x.2 ++ "&" ++ urlencode (y :: rest) from by
      simp [urlencode]]
    simp only [String.append_assoc]

/-- C5 counterexample: with an existing query parameter already named `key`,
the original parameter does not appear in the final URL — `params['key']` is
overwritten with the developer key, so the claim's "both appear" fails. -/
theorem auth_request_as_url_existing_key_lost :
    (auth_request_as_url dev_demo_key base_url "/lasereggs/abc" [("key", "x")] []).params =
      [("key", dev_demo_key)] ∧
    containsSub "key=x".data
      (auth_request_as_url dev_demo_key base_url "/lasereggs/abc" [("key", "x")] []).url.data =
      false := by
  exact ⟨rfl, by decide⟩

/-- C5 as amended: `auth_request_as_url` is a pure, error-free transformation
that appends the developer key as URL-encoded query parameter `key` and
leaves the headers unchanged; with no existing parameters the result is
`path?key=value`, and with existing parameters both the original parameters
and the key entry appear — provided no original parameter is itself named
`key`, in which case it is overwritten. -/
theorem auth_request_as_url_contract (dev burl relative_url : String)
    (params headers : List (String × String)) :
    (auth_request_as_url dev burl relative_url params headers).headers = headers ∧
    urlencode [("key", dev)] = "key=" ++ quotePlus dev ∧
    (params = [] →
      (auth_request_as_url dev burl relative_url params headers).url =
        stripChar '/' burl ++ relative_url ++ "?" ++ urlencode [("key", dev)]) ∧
    (params ≠ [] → dictGet params "key" = none →
      (auth_request_as_url dev burl relative_url params headers).url =
        stripChar '/' burl ++ relative_url ++ "?" ++
          (urlencode params ++ "&" ++ urlencode [("key", dev)])) := by
  refine ⟨rfl, ?_, ?_, ?_⟩
  · show quotePlus "key" ++ "=" ++ quotePlus dev = "key=" ++ quotePlus dev
    rw [show quotePlus "key" = "key" from by decide]
    rw [show ("key" : String) ++ "=" = "key=" from by decide]
  · intro h
    subst h
    rfl
  · intro hne habs
    unfold auth_request_as_url
    simp only
    rw [dictSet_of_absent params "key" dev habs, urlencode_append_single _ params hne]

/-- Witness for C5 at a concrete base, path and parameter list. -/
theorem auth_request_as_url_contract_witness :
    (auth_request_as_url "K" "b/" "/p" [("a", "1")] [("H", "v")]).headers = [("H", "v")] ∧
    urlencode [("key", "K")] = "key=" ++ quotePlus "K" ∧
    ([("a", "1")] = ([] : List (String × String)) →
      (auth_request_as_url "K" "b/" "/p" [("a", "1")] [("H", "v")]).url =
        stripChar '/' "b/" ++ "/p" ++ "?" ++ urlencode [("key", "K")]) ∧
    ([("a", "1")] ≠ ([] : List (String × String)) → dictGet [("a", "1")] "key" = none →
      (auth_request_as_url "K" "b/" "/p" [("a", "1")] [("H", "v")]).url =
        stripChar '/' "b/" ++ "/p" ++ "?" ++
          (urlencode [("a", "1")] ++ "&" ++ urlencode [("key", "K")])) :=
  auth_request_as_url_contract "K" "b/" "/p" [("a", "1")] [("H", "v")]

/-! ## C6: response handling -/

/-- C6 counterexample: a 301 response — non-2xx — is not surfaced as an
error by the `restv1-hmac.py` and `restv1-apikey.py` handlers, whose only
check is `raise_for_status` (4xx/5xx): with an empty body they return `None`
as if the request had succeeded. -/
theorem non2xx_not_always_surfaced :
    handle_response_hmac (fun _ => (0 : Nat)) ⟨301, []⟩ = .ok none ∧
    handle_response_apikey (fun _ => (0 : Nat)) ⟨301, []⟩ = .ok none ∧
    ¬(200 ≤ 301 ∧ 301 < 300) := by
  refine ⟨rfl, rfl, by omega⟩

/-- C6 as amended: every 4xx/5xx status raises an error carrying the status
and body in all three scripts; in `restv1-auth.py` every non-2xx status is
an error; in `restv1-hmac.py` and `restv1-apikey.py` a non-2xx status
outside 400..599 is not an error and the body is processed as on success;
and for 2xx responses an empty body yields `None` while a non-empty body is
parsed as JSON and returned. -/
theorem response_status_routing {J : Type} (loads : Bytes → J) (r : HttpResponse) :
    (400 ≤ r.status → r.status < 600 →
      handle_response_auth loads r = .error (.httpError r.status r.content) ∧
      handle_response_hmac loads r = .error (.httpError r.status r.content) ∧
      handle_response_apikey loads r = .error (.httpError r.status r.content)) ∧
    (¬(200 ≤ r.status ∧ r.status < 300) → ∃ e, handle_response_auth loads r = .error e) ∧
    (¬(200 ≤ r.status ∧ r.status < 300) → ¬(400 ≤ r.status ∧ r.status < 600) →
      handle_response_hmac loads r =
        (if 0 < r.content.length then .ok (some (loads r.content)) else .ok none)) ∧
    (200 ≤ r.status → r.status < 300 →
      handle_response_auth loads r = handle_response_hmac loads r ∧
      handle_response_apikey loads r = handle_response_hmac loads r ∧
      (r.content.length = 0 → handle_response_hmac loads r = .ok none) ∧
      (0 < r.content.length → handle_response_hmac loads r = .ok (some (loads r.content)))) := by
  refine ⟨?_, ?_, ?_, ?_⟩
  · intro h4 h6
    have hr : raise_for_status r = some (.httpError r.status r.content) := by
      simp [raise_for_status, h4, h6]
    refine ⟨?_, ?_, ?_⟩ <;> simp [handle_response_auth, handle_response_hmac,
      handle_response_apikey, hr]
  · intro hn
    by_cases h45 : 400 ≤ r.status ∧ r.status < 600
    · refine ⟨.httpError r.status r.content, ?_⟩
      have hr : raise_for_status r = some (.httpError r.status r.content) := by
        simp [raise_for_status, h45]
      simp [handle_response_auth, hr]
    · refine ⟨.non2xxError r.status, ?_⟩
      have hr : raise_for_status r = none := by
        simp only [raise_for_status, if_neg h45]
      simp [handle_response_auth, hr, hn]
  · intro _ h45
    have hr : raise_for_status r = none := by
      simp only [raise_for_status, if_neg h45]
    simp [handle_response_hmac, hr]
  · intro h2a h2b
    have hr : raise_for_status r = none := by
      have : ¬(400 ≤ r.status ∧ r.status < 600) := by omega
      simp only [raise_for_status, if_neg this]
    have h2 : (200 ≤ r.status ∧ r.status < 300) := ⟨h2a, h2b⟩
    refine ⟨?_, ?_, ?_, ?_⟩
    · simp [handle_response_auth, handle_response_hmac, hr, h2]
    · simp [handle_response_apikey, handle_response_hmac, hr]
    · intro hc
      simp [handle_response_hmac, hr, hc]
    · intro hc
      simp [handle_response_hmac, hr, hc]

/-- Witness for C6 at a 200 response with a one-byte body. -/
theorem response_status_routing_witness :
    (400 ≤ 200 → 200 < 600 →
      handle_response_auth (fun _ => (0 : Nat)) ⟨200, [49]⟩ =
        .error (.httpError 200 [49]) ∧
      handle_response_hmac (fun _ => (0 : Nat)) ⟨200, [49]⟩ =
        .error (.httpError 200 [49]) ∧
      handle_response_apikey (fun _ => (0 : Nat)) ⟨200, [49]⟩ =
        .error (.httpError 200 [49])) ∧
    (¬(200 ≤ 200 ∧ 200 < 300) →
      ∃ e, handle_response_auth (fun _ => (0 : Nat)) ⟨200, [49]⟩ = .error e) ∧
    (¬(200 ≤ 200 ∧ 200 < 300) → ¬(400 ≤ 200 ∧ 200 < 600) →
      handle_response_hmac (fun _ => (0 : Nat)) ⟨200, [49]⟩ =
        (if 0 < ([49] : Bytes).length then .ok (some 0) else .ok none)) ∧
    (200 ≤ 200 → 200 < 300 →
      handle_response_auth (fun _ => (0 : Nat)) ⟨200, [49]⟩ =
        handle_response_hmac (fun _ => (0 : Nat)) ⟨200, [49]⟩ ∧
      handle_response_apikey (fun _ => (0 : Nat)) ⟨200, [49]⟩ =
        handle_response_hmac (fun _ => (0 : Nat)) ⟨200, [49]⟩ ∧
      (([49] : Bytes).length = 0 →
        handle_response_hmac (fun _ => (0 : Nat)) ⟨200, [49]⟩ = .ok none) ∧
      (0 < ([49] : Bytes).length →
        handle_response_hmac (fun _ => (0 : Nat)) ⟨200, [49]⟩ = .ok (some 0))) :=
  response_status_routing (fun _ => (0 : Nat)) ⟨200, [49]⟩

/-! ## C8: in-place mutation and default-argument leakage -/

/-- C8: `auth_request_as_url` adds the `key` entry to the very params
mapping passed in (its result params are the input dict with `key` set, all
other entries kept in place); after `do_get`'s first default-dict call the
shared default params dict permanently holds the `key` entry, so a later
call using the default starts with it present; and `auth_request_as_hmac`
builds its returned headers from the very headers dict passed in, augmented
with exactly the three auth entries. -/
theorem mutation_in_place_and_default_leakage :
    (∀ dev burl relative_url params headers,
      (auth_request_as_url dev burl relative_url params headers).params =
        dictSet params "key" dev) ∧
    dictGet (do_get_params_after []) "key" = some API_KEY ∧
    do_get_params_after [] ≠ [] ∧
    (∀ (cfg : HmacConfig) (t : Nat) (relative_url : String)
        (params headers : List (String × String)) (body : Bytes)
        (res : String × List (String × String)),
      auth_request_as_hmac cfg t relative_url params headers body = .ok res →
      ∃ sig, res.2 = dictSet (dictSet (dictSet headers "X-Kaiterra-Client" cfg.client_id)
        "X-Kaiterra-Time" (natToHex t)) "X-Kaiterra-HMAC" sig) := by
  refine ⟨fun _ _ _ _ _ => rfl, by decide, by decide, ?_⟩
  intro cfg t relative_url params headers body res h
  unfold auth_request_as_hmac at h
  cases h1 : bytearray_fromhex cfg.hmac_secret_key with
  | none => rw [h1] at h; exact absurd h (by simp)
  | some key =>
    rw [h1] at h
    simp only at h
    cases h2 : asciiEncode ("X-Kaiterra-Client=" ++ cfg.client_id ++ "&X-Kaiterra-Time=" ++
        natToHex t) with
    | none => rw [h2] at h; exact absurd h (by simp)
    | some header_component =>
      rw [h2] at h
      simp only at h
      cases h3 : asciiEncode (if params.isEmpty then relative_url
          else relative_url ++ "?" ++ urlencode params) with
      | none => rw [h3] at h; exact absurd h (by simp)
      | some url_component =>
        rw [h3] at h
        simp only [Except.ok.injEq] at h
        exact ⟨b64encode (hmac key (header_component ++ url_component ++ body)),
          by rw [← h]⟩

set_option maxRecDepth 40000 in
/-- Witness for C8: the params conjunct at a concrete call, and the headers
conjunct at a concrete successful signing call. -/
theorem mutation_in_place_and_default_leakage_witness :
    (auth_request_as_url "K" "b/" "/p" [("a", "1")] []).params =
      dictSet [("a", "1")] "key" "K" ∧
    ∃ sig, (("b/x", [("X-Kaiterra-Client", "c"), ("X-Kaiterra-Time", "0"),
        ("X-Kaiterra-HMAC", "uCJUomxd6d00NFqPANeo6k7kb+5crKd7xZ1sDurmROo=")]) :
        String × List (String × String)).2 =
      dictSet (dictSet (dictSet [] "X-Kaiterra-Client" "c") "X-Kaiterra-Time" (natToHex 0))
        "X-Kaiterra-HMAC" sig :=
  ⟨mutation_in_place_and_default_leakage.1 "K" "b/" "/p" [("a", "1")] [],
   mutation_in_place_and_default_leakage.2.2.2 ⟨"b/", "c", "00"⟩ 0 "/x" [] [] [] _ (by rfl)⟩

/-! ## C9: unknown verbs in the dispatch helpers -/

/-- C9: for every verb outside get/post/put, once signing succeeds, `do_req`
of `restv1-hmac.py` falls past the three dispatch branches with the local
`response` never assigned, so the call fails with `UnboundLocalError` rather
than returning a value or raising a described request failure; likewise the
dispatch of `restv1-auth.py`'s `do_req`. -/
theorem unknown_verb_unbound_local {J : Type} (cfg : HmacConfig) (t : Nat)
    (transport : String → HttpResponse) (loads : Bytes → J) (verb relative_url : String)
    (body : Bytes) (params hdrs0 : List (String × String))
    (h1 : verb ≠ "get") (h2 : verb ≠ "post") (h3 : verb ≠ "put")
    (hok : exceptOk (auth_request_as_hmac cfg t relative_url params hdrs0 body) = true) :
    do_req cfg t transport loads verb relative_url body params hdrs0 =
      .error (.unboundLocal "response") ∧
    do_req_auth_dispatch loads transport verb = .error (.unboundLocal "response") := by
  have hv : (verb == "get" || verb == "post" || verb == "put") = false := by
    simp [h1, h2, h3]
  constructor
  · unfold do_req
    cases hres : auth_request_as_hmac cfg t relative_url params hdrs0 body with
    | error e =>
      rw [hres] at hok
      exact absurd hok (by simp [exceptOk])
    | ok p =>
      obtain ⟨u, hs⟩ := p
      simp [hv]
  · unfold do_req_auth_dispatch
    simp [hv]

/-- Witness for C9 at verb `delete` and a concrete valid signing
configuration. -/
theorem unknown_verb_unbound_local_witness :
    do_req ⟨"b/", "c", "00"⟩ 0 (fun _ => ⟨200, []⟩) (fun _ => (0 : Nat)) "delete" "/x"
        [] [] [] = .error (.unboundLocal "response") ∧
    do_req_auth_dispatch (fun _ => (0 : Nat)) (fun _ => ⟨200, []⟩) "delete" =
      .error (.unboundLocal "response") :=
  unknown_verb_unbound_local ⟨"b/", "c", "00"⟩ 0 (fun _ => ⟨200, []⟩) (fun _ => (0 : Nat))
    "delete" "/x" [] [] [] (by decide) (by decide) (by decide) (by decide)

end Kaiterra
